import Mathlib

/-!
# Verification of the solana-vrf oracle backend and coordinator program

Shallow embedding of the VRF oracle backend (`src/backend`) and the
coordinator program (`src/program/programs/vrf-sol`) of the
`nikola43/solana-vrf` repository, together with proofs that settle the
specification's claims about it.

Bytes are modelled as `Nat` (each serialization primitive reduces modulo 256
explicitly), byte strings as `List Nat`, and machine words as `Nat` with
explicit `% 2 ^ w` where overflow matters.
-/

set_option maxRecDepth 100000

deriving instance DecidableEq for Except

namespace SolanaVrf

/-! ## Byte-level serialization primitives -/

/-- Little-endian serialization of a `u16` (`u16::to_le_bytes`). -/
def u16le (n : Nat) : List Nat :=
  [n % 256, n / 256 % 256]

/-- Little-endian serialization of a `u32` (`u32::to_le_bytes`). -/
def u32le (n : Nat) : List Nat :=
  [n % 256, n / 256 % 256, n / 2 ^ 16 % 256, n / 2 ^ 24 % 256]

/-- Little-endian serialization of a `u64` (`u64::to_le_bytes`). -/
def u64le (n : Nat) : List Nat :=
  [n % 256, n / 2 ^ 8 % 256, n / 2 ^ 16 % 256, n / 2 ^ 24 % 256,
   n / 2 ^ 32 % 256, n / 2 ^ 40 % 256, n / 2 ^ 48 % 256, n / 2 ^ 56 % 256]

/-- Big-endian serialization of a `u32` (used inside SHA-256). -/
def u32be (n : Nat) : List Nat :=
  [n / 2 ^ 24 % 256, n / 2 ^ 16 % 256, n / 2 ^ 8 % 256, n % 256]

/-- Big-endian serialization of a `u64` (the SHA-256 length field). -/
def u64be (n : Nat) : List Nat :=
  [n / 2 ^ 56 % 256, n / 2 ^ 48 % 256, n / 2 ^ 40 % 256, n / 2 ^ 32 % 256,
   n / 2 ^ 24 % 256, n / 2 ^ 16 % 256, n / 2 ^ 8 % 256, n % 256]

/-- Read a little-endian byte list back as a natural number
(`u64::from_le_bytes` / `u16::from_le_bytes`). -/
def leNat : List Nat → Nat
  | [] => 0
  | b :: rest => b % 256 + 256 * leNat rest

/-- The UTF-8 bytes of an ASCII string literal (every string used by the
program is ASCII, where UTF-8 agrees with the code points). -/
def strBytes (s : String) : List Nat :=
  s.toList.map Char.toNat

/-! ## SHA-256 (FIPS 180-4), executable over byte lists

The backend and the program compute discriminators, randomness expansion and
HMAC through the `sha2` crate; this is the corresponding pure function. -/

/-- Truncation to a 32-bit word. -/
def w32 (x : Nat) : Nat := x % 2 ^ 32

/-- Right-rotation of a 32-bit word (`x.rotate_right n` for `x < 2 ^ 32`). -/
def rotr32 (x n : Nat) : Nat :=
  w32 ((x >>> n) ||| (x <<< (32 - n)))

/-- Bitwise complement of a 32-bit word. -/
def not32 (x : Nat) : Nat := 2 ^ 32 - 1 - x % 2 ^ 32

/-- The SHA-256 `Ch` function. -/
def shaCh (x y z : Nat) : Nat := (x &&& y) ^^^ (not32 x &&& z)

/-- The SHA-256 `Maj` function. -/
def shaMaj (x y z : Nat) : Nat := (x &&& y) ^^^ (x &&& z) ^^^ (y &&& z)

/-- The SHA-256 `Σ₀` function. -/
def bsig0 (x : Nat) : Nat := rotr32 x 2 ^^^ rotr32 x 13 ^^^ rotr32 x 22

/-- The SHA-256 `Σ₁` function. -/
def bsig1 (x : Nat) : Nat := rotr32 x 6 ^^^ rotr32 x 11 ^^^ rotr32 x 25

/-- The SHA-256 `σ₀` function. -/
def ssig0 (x : Nat) : Nat := rotr32 x 7 ^^^ rotr32 x 18 ^^^ (x >>> 3)

/-- The SHA-256 `σ₁` function. -/
def ssig1 (x : Nat) : Nat := rotr32 x 17 ^^^ rotr32 x 19 ^^^ (x >>> 10)

/-- The 64 SHA-256 round constants (decimal). -/
def sha256K : List Nat :=
  [1116352408, 1899447441, 3049323471, 3921009573, 961987163,
   1508970993, 2453635748, 2870763221, 3624381080, 310598401,
   607225278, 1426881987, 1925078388, 2162078206, 2614888103,
   3248222580, 3835390401, 4022224774, 264347078, 604807628,
   770255983, 1249150122, 1555081692, 1996064986, 2554220882,
   2821834349, 2952996808, 3210313671, 3336571891, 3584528711,
   113926993, 338241895, 666307205, 773529912, 1294757372,
   1396182291, 1695183700, 1986661051, 2177026350, 2456956037,
   2730485921, 2820302411, 3259730800, 3345764771, 3516065817,
   3600352804, 4094571909, 275423344, 430227734, 506948616,
   659060556, 883997877, 958139571, 1322822218, 1537002063,
   1747873779, 1955562222, 2024104815, 2227730452, 2361852424,
   2428436474, 2756734187, 3204031479, 3329325298]

/-- The eight-word SHA-256 working state. -/
structure Sha256State where
  a : Nat
  b : Nat
  c : Nat
  d : Nat
  e : Nat
  f : Nat
  g : Nat
  h : Nat
  deriving Repr, DecidableEq

/-- The SHA-256 initial hash value (decimal). -/
def sha256Init : Sha256State :=
  ⟨1779033703, 3144134277, 1013904242, 2773480762,
   1359893119, 2600822924, 528734635, 1541459225⟩

/-- Group a byte list into big-endian 32-bit words. -/
def bytesToWords32 : List Nat → List Nat
  | b0 :: b1 :: b2 :: b3 :: rest =>
      (b0 % 256 * 2 ^ 24 + b1 % 256 * 2 ^ 16 + b2 % 256 * 2 ^ 8 + b3 % 256)
        :: bytesToWords32 rest
  | _ => []

/-- Extend the 16-word message block by `n` further schedule words. -/
def extendW : List Nat → Nat → List Nat
  | ws, 0 => ws
  | ws, n + 1 =>
      let l := ws.length
      let nw := w32 (ssig1 (ws.getD (l - 2) 0) + ws.getD (l - 7) 0 +
                     ssig0 (ws.getD (l - 15) 0) + ws.getD (l - 16) 0)
      extendW (ws ++ [nw]) n

/-- One SHA-256 round: consume one (round constant, schedule word) pair. -/
def sha256Round (st : Sha256State) (kw : Nat × Nat) : Sha256State :=
  let t1 := w32 (st.h + bsig1 st.e + shaCh st.e st.f st.g + kw.1 + kw.2)
  let t2 := w32 (bsig0 st.a + shaMaj st.a st.b st.c)
  ⟨w32 (t1 + t2), st.a, st.b, st.c, w32 (st.d + t1), st.e, st.f, st.g⟩

/-- Compress one 64-byte block into the running state. -/
def sha256Compress (st : Sha256State) (block : List Nat) : Sha256State :=
  let ws := extendW (bytesToWords32 block) 48
  let r := List.foldl sha256Round st (List.zip sha256K ws)
  ⟨w32 (st.a + r.a), w32 (st.b + r.b), w32 (st.c + r.c), w32 (st.d + r.d),
   w32 (st.e + r.e), w32 (st.f + r.f), w32 (st.g + r.g), w32 (st.h + r.h)⟩

/-- SHA-256 padding: `0x80`, zeros to 56 mod 64, then the 64-bit bit length. -/
def sha256Pad (msg : List Nat) : List Nat :=
  let l := msg.length
  let zeros := (120 - (l + 1) % 64) % 64
  msg ++ [0x80] ++ List.replicate zeros 0 ++ u64be (8 * l)

/-- Split a byte list into 64-byte blocks; the fuel argument (any bound on
the block count, here the list length) makes the recursion structural. -/
def chunk64Fuel : Nat → List Nat → List (List Nat)
  | 0, _ => []
  | _, [] => []
  | fuel + 1, x :: xs => ((x :: xs).take 64) :: chunk64Fuel fuel ((x :: xs).drop 64)

/-- Split a (padded) byte list into 64-byte blocks. -/
def chunk64 (l : List Nat) : List (List Nat) :=
  chunk64Fuel l.length l

/-- Serialize the final state to the 32-byte digest. -/
def sha256StateBytes (st : Sha256State) : List Nat :=
  u32be st.a ++ u32be st.b ++ u32be st.c ++ u32be st.d ++
  u32be st.e ++ u32be st.f ++ u32be st.g ++ u32be st.h

/-- SHA-256 of a byte list (the `sha2::Sha256` digest). -/
def sha256 (msg : List Nat) : List Nat :=
  sha256StateBytes (List.foldl sha256Compress sha256Init (chunk64 (sha256Pad msg)))

/-! ## HMAC-SHA256 (FIPS 198-1), as used through the `hmac` crate -/

/-- HMAC-SHA256 of a message under a key of any length. -/
def hmacSha256 (key msg : List Nat) : List Nat :=
  let k0 := if key.length > 64 then sha256 key else key
  let kp := k0 ++ List.replicate (64 - k0.length) 0
  let ipadKey := kp.map (fun b => b ^^^ 0x36)
  let opadKey := kp.map (fun b => b ^^^ 0x5c)
  sha256 (opadKey ++ sha256 (ipadKey ++ msg))

/-- The incremental `Hmac<Sha256>` object: `new_from_slice` fixes the key,
`update` appends data, `finalize` produces the tag over the accumulated
message (the streaming API of the `hmac` crate). -/
structure HmacSha256Mac where
  key : List Nat
  acc : List Nat

/-- Rust `HmacSha256::new_from_slice` (accepts keys of any size). -/
def HmacSha256Mac.newFromSlice (key : List Nat) : HmacSha256Mac :=
  ⟨key, []⟩

/-- Rust `mac.update(data)`. -/
def HmacSha256Mac.update (m : HmacSha256Mac) (data : List Nat) : HmacSha256Mac :=
  ⟨m.key, m.acc ++ data⟩

/-- Rust `mac.finalize().into_bytes()`. -/
def HmacSha256Mac.finalize (m : HmacSha256Mac) : List Nat :=
  hmacSha256 m.key m.acc

/-! ## VRF core (`src/backend/src/vrf.rs`) -/

/-- The VRF output computation `compute_randomness(hmac_secret, seed,
request_slot, request_id)`: it streams `seed`,
`request_slot.to_le_bytes()` and `request_id.to_le_bytes()` into an
`Hmac<Sha256>` keyed by the secret and takes the 32-byte tag. -/
def compute_randomness (hmac_secret seed : List Nat)
    (request_slot request_id : Nat) : List Nat :=
  let mac := HmacSha256Mac.newFromSlice hmac_secret
  let mac := mac.update seed
  let mac := mac.update (u64le request_slot)
  let mac := mac.update (u64le request_id)
  mac.finalize

/-! ## Solana data model

Addresses are abstracted: a `Pubkey` is either a literal 32-byte value, a
program-derived address (`find_program_address` is modelled as the injective
constructor `pda`, standing for the collision-free derivation), or one of the
well-known native program ids written by its base58 name. -/

inductive Pubkey where
  | raw (bytes : List Nat)
  | pda (programId : Pubkey) (seeds : List (List Nat))
  | named (base58 : String)
  deriving Repr, DecidableEq

/-- Rust `Pubkey::find_program_address(seeds, program_id)`. Modelled: the
derived address is the `pda` constructor and the bump the canonical start
value; the on-curve bump search is immaterial to every claim below. -/
def findProgramAddress (seeds : List (List Nat)) (programId : Pubkey) :
    Pubkey × Nat :=
  (Pubkey.pda programId seeds, 255)

/-- Rust `Pubkey::to_bytes`. Literal keys are their bytes; derived and named
keys are modelled by a hash of their description (32 bytes, collision-free
stands in for the real base58/sha256 derivations). -/
def pubkeyToBytes : Pubkey → List Nat
  | .raw bytes => bytes
  | .pda programId seeds =>
      sha256 (pubkeyToBytes programId ++ seeds.flatten ++ strBytes "ProgramDerivedAddress")
  | .named base58 => (sha256 (strBytes base58)).take 32

/-- The `solana_sdk::instruction::AccountMeta` shape. -/
structure AccountMeta where
  pubkey : Pubkey
  isSigner : Bool
  isWritable : Bool
  deriving Repr, DecidableEq

/-- Rust `AccountMeta::new` (writable). -/
def AccountMeta.new (pubkey : Pubkey) (isSigner : Bool) : AccountMeta :=
  ⟨pubkey, isSigner, true⟩

/-- Rust `AccountMeta::new_readonly`. -/
def AccountMeta.newReadonly (pubkey : Pubkey) (isSigner : Bool) : AccountMeta :=
  ⟨pubkey, isSigner, false⟩

/-- The `solana_sdk::instruction::Instruction` shape. -/
structure Instruction where
  programId : Pubkey
  accounts : List AccountMeta
  data : List Nat
  deriving Repr, DecidableEq

/-- The native Ed25519 program id (`solana_sdk::ed25519_program::id()`). -/
def ed25519ProgramId : Pubkey :=
  .named "Ed25519SigVerify111111111111111111111111111"

/-- The compute-budget program id parsed in
`build_set_compute_unit_price_instruction`. -/
def computeBudgetProgramId : Pubkey :=
  .named "ComputeBudget111111111111111111111111111111"

/-- The system program id (`solana_program::system_program::ID`). -/
def systemProgramId : Pubkey :=
  .named "11111111111111111111111111111111"

/-- The instructions sysvar id (`solana_sdk::sysvar::instructions::ID`). -/
def instructionsSysvarId : Pubkey :=
  .named "Sysvar1nstructions1111111111111111111111111"

/-- The oracle's Ed25519 keypair: its public key bytes and its (deterministic)
`sign_message` function. The signature algebra itself is irrelevant to the
claims; only the byte layout of its output matters. -/
structure Keypair where
  pubkeyBytes : List Nat
  sign : List Nat → List Nat

/-! ## Fulfiller (`src/backend/src/fulfiller.rs`) -/

/-- Constant `ERROR_REQUEST_NOT_PENDING`. -/
def errorRequestNotPending : Nat := 6000

/-- Constant `ERROR_UNAUTHORIZED`. -/
def errorUnauthorized : Nat := 6009

/-- Rust `format!("0x{:x}", n)`. -/
def hexCode (n : Nat) : String :=
  "0x" ++ (Nat.toDigits 16 n).asString

/-- Anchor `fulfill_discriminator()`: first 8 bytes of
`sha256("global:fulfill_randomness")`. -/
def fulfill_discriminator : List Nat :=
  (sha256 (strBytes "global:fulfill_randomness")).take 8

/-- Anchor `fulfill_compressed_discriminator()`. -/
def fulfill_compressed_discriminator : List Nat :=
  (sha256 (strBytes "global:fulfill_randomness_compressed")).take 8

/-- Whether `pat` is an initial segment of the second list. -/
def startsWithList {α : Type} [DecidableEq α] : List α → List α → Bool
  | [], _ => true
  | _ :: _, [] => false
  | p :: ps, x :: xs => decide (p = x) && startsWithList ps xs

/-- Whether `pat` occurs contiguously in the second list
(`str::contains` on the underlying characters). -/
def containsSeq {α : Type} [DecidableEq α] (pat : List α) : List α → Bool
  | [] => startsWithList pat []
  | x :: xs => startsWithList pat (x :: xs) || containsSeq pat xs

/-- Rust `haystack.contains(needle)` on strings. -/
def strContains (haystack needle : String) : Bool :=
  containsSeq needle.toList haystack.toList

/-- The classifier `is_non_retryable(err_str)`: the Anchor error codes plus
the string-based error names the fulfiller silently skips. -/
def is_non_retryable (errStr : String) : Bool :=
  let nonRetryableCodes := [hexCode errorRequestNotPending, hexCode errorUnauthorized]
  nonRetryableCodes.any (fun code => strContains errStr code) ||
  (strContains errStr "RequestNotPending" ||
   strContains errStr "Unauthorized" ||
   strContains errStr "AccountNotInitialized" ||
   strContains errStr "already in use" ||
   strContains errStr "CompressedAccountMismatch")

/-- The log level chosen by `handle_fulfillment_error`. -/
inductive LogLevel where
  | warnLevel
  | errorLevel
  deriving Repr, DecidableEq

/-- The fulfiller's `handle_fulfillment_error(request_id, error, metrics)`
on the rendered error string: returns the new `requests_failed` counter and
the log level used. Non-retryable errors are warned about and not counted. -/
def handle_fulfillment_error (errStr : String) (requestsFailed : Nat) :
    Nat × LogLevel :=
  if is_non_retryable errStr then (requestsFailed, .warnLevel)
  else (requestsFailed + 1, .errorLevel)

/-- Outcome of one `send_and_confirm_transaction` call. -/
inductive SendOutcome where
  | confirmed (sig : String)
  | failed (err : String)
  deriving Repr, DecidableEq

/-- The RPC environment a submission loop runs against: for each attempt
index, the result of the blockhash fetch and of the transaction submission.
(The transaction is re-signed against the fresh blockhash each attempt; its
bytes do not influence control flow, so the environment is indexed by the
attempt only.) -/
structure RpcEnv where
  blockhash : Nat → Except String Nat
  sendAndConfirm : Nat → SendOutcome

/-- The retry loop of `send_with_retries`, one step per remaining attempt.
Returns the overall result together with the list of sleeps performed (in
milliseconds). `remaining` starts at `max_retries` and `attempt` at 0. -/
def sendWithRetriesLoop (maxRetries requestId : Nat) (env : RpcEnv) :
    Nat → Nat → Nat → List Nat → Except String String × List Nat
  | 0, _, _, slept =>
      (.error ("max retries (" ++ toString maxRetries ++
               ") exceeded for request_id=" ++ toString requestId), slept)
  | remaining + 1, attempt, delay, slept =>
      match env.blockhash attempt with
      | .error e => (.error ("failed to fetch latest blockhash: " ++ e), slept)
      | .ok _ =>
          match env.sendAndConfirm attempt with
          | .confirmed sig => (.ok sig, slept)
          | .failed e =>
              if strContains e "BlockhashNotFound" && decide (attempt < maxRetries - 1) then
                sendWithRetriesLoop maxRetries requestId env remaining
                  (attempt + 1) (min (delay * 2) 60000) (slept ++ [delay])
              else
                (.error ("send_and_confirm_transaction failed: " ++ e), slept)

/-- The submission function
`send_with_retries(rpc_client, config, instructions, request_id)`:
`for attempt in 0..max_retries` with exponential backoff on
`BlockhashNotFound` (sleep the current delay, then double it, capped at
60 s); any other error propagates immediately. -/
def send_with_retries (maxRetries initialRetryDelayMs requestId : Nat)
    (env : RpcEnv) : Except String String × List Nat :=
  sendWithRetriesLoop maxRetries requestId env maxRetries 0 initialRetryDelayMs []

/-- Default `MAX_RETRIES` (config.rs). -/
def defaultMaxRetries : Nat := 5

/-- Default `INITIAL_RETRY_DELAY_MS` (config.rs). -/
def defaultInitialRetryDelayMs : Nat := 500

/-- The builder `build_ed25519_instruction(keypair, message)`: the native
Ed25519 signature-verify instruction with signature, public key and message
all embedded in this instruction's data (`u16::MAX` instruction indices). -/
def build_ed25519_instruction (keypair : Keypair) (message : List Nat) :
    Instruction :=
  let signature := keypair.sign message
  let pubkey := keypair.pubkeyBytes
  let dataStart := 2 + 7 * 2
  let publicKeyOffset := dataStart
  let signatureOffset := dataStart + 32
  let messageDataOffset := dataStart + 32 + 64
  let messageDataSize := message.length
  let data :=
    [1, 0] ++
    u16le signatureOffset ++ u16le 0xFFFF ++
    u16le publicKeyOffset ++ u16le 0xFFFF ++
    u16le messageDataOffset ++ u16le messageDataSize ++ u16le 0xFFFF ++
    pubkey ++ signature ++ message
  { programId := ed25519ProgramId, accounts := [], data := data }

/-- The builder `build_set_compute_unit_price_instruction(micro_lamports)`:
data is the `SetComputeUnitPrice` tag `0x03` followed by the price as
`u64` LE. -/
def build_set_compute_unit_price_instruction (microLamports : Nat) :
    Instruction :=
  { programId := computeBudgetProgramId
  , accounts := []
  , data := 3 :: u64le microLamports }

/-- The builder `build_fulfill_instruction(program_id, authority,
request_id, randomness)`: the Anchor `fulfill_randomness` instruction the
oracle submits. -/
def build_fulfill_instruction (programId authority : Pubkey)
    (requestId : Nat) (randomness : List Nat) : Instruction :=
  let configPda := (findProgramAddress [strBytes "vrf-config"] programId).1
  let requestPda :=
    (findProgramAddress [strBytes "request", u64le requestId] programId).1
  { programId := programId
  , accounts :=
      [AccountMeta.new authority true,
       AccountMeta.newReadonly configPda false,
       AccountMeta.new requestPda false,
       AccountMeta.newReadonly instructionsSysvarId false]
  , data := fulfill_discriminator ++ u64le requestId ++ randomness }

/-- The `RandomnessRequested` event as the listener parses it (listener.rs):
the requester key is kept as its raw 32 wire bytes. -/
structure RandomnessRequestedEvent where
  request_id : Nat
  requester : List Nat
  seed : List Nat
  request_slot : Nat
  deriving Repr, DecidableEq

/-- The oracle configuration fields that feed the fulfillment pipeline. -/
structure OracleConfig where
  hmac_secret : List Nat
  authority_keypair : Keypair
  program_id : Pubkey
  priority_fee_micro_lamports : Nat
  max_retries : Nat
  initial_retry_delay_ms : Nat

/-- The instruction list assembled by `fulfill_request` (fulfiller.rs
lines 213-253): compute the randomness, sign `request_id_le ‖ randomness`,
optionally prepend the priority-fee instruction, then the Ed25519 proof and
the fulfill instruction. -/
def fulfill_request_instructions (config : OracleConfig)
    (event : RandomnessRequestedEvent) : List Instruction :=
  let randomness :=
    compute_randomness config.hmac_secret event.seed event.request_slot event.request_id
  let message := u64le event.request_id ++ randomness
  let ed25519Ix := build_ed25519_instruction config.authority_keypair message
  let fulfillIx :=
    build_fulfill_instruction config.program_id
      (.raw config.authority_keypair.pubkeyBytes) event.request_id randomness
  (if config.priority_fee_micro_lamports > 0 then
     [build_set_compute_unit_price_instruction config.priority_fee_micro_lamports]
   else []) ++ [ed25519Ix, fulfillIx]

/-! ## Listener (`src/backend/src/listener.rs`) -/

/-- Anchor `event_discriminator(name)`: `sha256("event:<Name>")[..8]`. -/
def event_discriminator (eventName : String) : List Nat :=
  (sha256 (strBytes ("event:" ++ eventName))).take 8

/-- Anchor `account_discriminator(name)`: `sha256("account:<Name>")[..8]`. -/
def account_discriminator (accountName : String) : List Nat :=
  (sha256 (strBytes ("account:" ++ accountName))).take 8

/-- Constant `MIN_ACCOUNT_DATA_LEN`: the listener's expected minimum
request-account size (8 + 8 + 32 + 32 + 8 + 32 + 1 bytes per its own layout
comment). -/
def MIN_ACCOUNT_DATA_LEN : Nat := 121

/-- Value of one standard-alphabet base64 symbol. -/
def b64Val (c : Char) : Option Nat :=
  if 'A' ≤ c ∧ c ≤ 'Z' then some (c.toNat - 'A'.toNat)
  else if 'a' ≤ c ∧ c ≤ 'z' then some (c.toNat - 'a'.toNat + 26)
  else if '0' ≤ c ∧ c ≤ '9' then some (c.toNat - '0'.toNat + 52)
  else if c = '+' then some 62
  else if c = '/' then some 63
  else none

/-- RFC 4648 standard base64 decoding (the `base64::STANDARD` engine):
4-symbol groups to 3 bytes, canonical `=` padding, invalid input rejected. -/
def base64Decode : List Char → Option (List Nat)
  | [] => some []
  | a :: b :: c :: d :: rest => do
      let va ← b64Val a
      let vb ← b64Val b
      if c = '=' then
        if d = '=' ∧ rest = [] ∧ vb % 16 = 0 then
          some [va * 4 + vb / 16]
        else none
      else do
        let vc ← b64Val c
        if d = '=' then
          if rest = [] ∧ vc % 4 = 0 then
            some [va * 4 + vb / 16, vb % 16 * 16 + vc / 4]
          else none
        else do
          let vd ← b64Val d
          let tail ← base64Decode rest
          some ([va * 4 + vb / 16, vb % 16 * 16 + vc / 4, vc % 4 * 64 + vd] ++ tail)
  | _ => none

/-- ASCII whitespace test used by `str::trim` (our inputs are ASCII). -/
def isWhitespaceChar (c : Char) : Bool :=
  decide (c = ' ') || decide (c = '\t') || decide (c = '\n') || decide (c = '\r')

/-- Rust `str::trim`. -/
def trimChars (s : List Char) : List Char :=
  ((s.dropWhile isWhitespaceChar).reverse.dropWhile isWhitespaceChar).reverse

/-- Rust `str::strip_prefix` on character lists. -/
def dropLead {α : Type} [DecidableEq α] : List α → List α → Option (List α)
  | [], l => some l
  | _ :: _, [] => none
  | p :: ps, x :: xs => if p = x then dropLead ps xs else none

/-- The listener's `Deduplicator`: a set of already-dispatched request ids. -/
structure Deduplicator where
  seen : List Nat
  deriving Repr, DecidableEq

/-- Constructor `Deduplicator::new()`. -/
def Deduplicator.new : Deduplicator := ⟨[]⟩

/-- Insertion `Deduplicator::insert(request_id)`: `true` iff the id was not
yet seen (`HashSet::insert` semantics); the set is unchanged on a
duplicate. -/
def Deduplicator.insert (d : Deduplicator) (requestId : Nat) :
    Bool × Deduplicator :=
  if d.seen.contains requestId then (false, d)
  else (true, ⟨requestId :: d.seen⟩)

/-- The parser `parse_randomness_requested_event(data)`: the 80-byte event
body layout `request_id (8) + requester (32) + seed (32) + request_slot
(8)`. -/
def parse_randomness_requested_event (data : List Nat) :
    Option RandomnessRequestedEvent :=
  if data.length < 80 then none
  else some
    { request_id := leNat (data.take 8)
    , requester := (data.drop 8).take 32
    , seed := (data.drop 40).take 32
    , request_slot := leNat ((data.drop 72).take 8) }

/-- A message sent into the fulfiller queue. -/
inductive FulfillmentRequest where
  | Regular (event : RandomnessRequestedEvent)
  | Compressed (event : RandomnessRequestedEvent) (address : List Nat)
  deriving Repr, DecidableEq

/-- One iteration of the `process_log_lines` loop on a single log line,
threading the emitted messages and the deduplicator. -/
def processLogLine (regularDisc compressedDisc : List Nat)
    (st : List FulfillmentRequest × Deduplicator) (line : List Char) :
    List FulfillmentRequest × Deduplicator :=
  match dropLead ("Program data: ".toList) line with
  | none => st
  | some dataStr =>
    match base64Decode (trimChars dataStr) with
    | none => st
    | some decoded =>
      if decoded.length < 8 then st
      else
        let disc := decoded.take 8
        let payload := decoded.drop 8
        if disc = regularDisc then
          match parse_randomness_requested_event payload with
          | none => st
          | some event =>
            let (fresh, dedup) := st.2.insert event.request_id
            if fresh then (st.1 ++ [.Regular event], dedup) else (st.1, dedup)
        else if disc = compressedDisc then
          match parse_randomness_requested_event payload with
          | none => st
          | some event =>
            let (fresh, dedup) := st.2.insert event.request_id
            if fresh then
              (st.1 ++ [.Compressed event (List.replicate 32 0)], dedup)
            else (st.1, dedup)
        else st

/-- The listener's `process_log_lines(logs, ..)`: scan a log batch for
`Program data: ` lines, decode and dispatch matching events through the
deduplicator. -/
def process_log_lines (logs : List (List Char))
    (regularDisc compressedDisc : List Nat) (dedup : Deduplicator) :
    List FulfillmentRequest × Deduplicator :=
  logs.foldl (processLogLine regularDisc compressedDisc) ([], dedup)

/-- The server-side `getProgramAccounts` Memcmp filters built by
`catch_up_pending_requests` (listener.rs lines 140-143): the
`RandomnessRequest` discriminator at offset 0, and a zero byte at
offset 120. -/
def matchesCatchUpFilters (data : List Nat) : Bool :=
  decide (data.take 8 = account_discriminator "RandomnessRequest") &&
  decide ((data.drop 120).take 1 = [0])

/-- The per-account body parse of `catch_up_pending_requests`: skip the
8-byte discriminator, then `request_id` at body 0..8, `requester` at 8..40,
`seed` at 40..72, `request_slot` at 72..80; accounts shorter than
`MIN_ACCOUNT_DATA_LEN` are skipped. -/
def catchUpParseAccount (data : List Nat) : Option RandomnessRequestedEvent :=
  if data.length < MIN_ACCOUNT_DATA_LEN then none
  else
    let body := data.drop 8
    some { request_id := leNat (body.take 8)
         , requester := (body.drop 8).take 32
         , seed := (body.drop 40).take 32
         , request_slot := leNat ((body.drop 72).take 8) }

/-- The catch-up scan `catch_up_pending_requests`: the messages produced
from the accounts the filtered `getProgramAccounts` call returns. Note: it
takes no deduplicator — the `Deduplicator` is created inside
`listen_for_events` and only the live log path consults it. -/
def catch_up_pending_requests (accounts : List (List Nat)) :
    List FulfillmentRequest :=
  ((accounts.filter matchesCatchUpFilters).filterMap catchUpParseAccount).map
    .Regular

/-! ## Coordinator program state (`src/program/programs/vrf-sol/src/state.rs`) -/

/-- The `CoordinatorConfig` account (seeds `["coordinator-config"]`). -/
structure CoordinatorConfig where
  admin : Pubkey
  authority : Pubkey
  fee_per_word : Nat
  max_num_words : Nat
  request_counter : Nat
  subscription_counter : Nat
  bump : Nat
  deriving Repr, DecidableEq

/-- The `RandomnessRequest` account (seeds `["request", request_id le]`). -/
structure RandomnessRequest where
  request_id : Nat
  subscription_id : Nat
  consumer_program : Pubkey
  requester : Pubkey
  num_words : Nat
  seed : List Nat
  request_slot : Nat
  callback_compute_limit : Nat
  status : Nat
  randomness : List Nat
  fulfilled_slot : Nat
  bump : Nat
  deriving Repr, DecidableEq

/-- Constant `RandomnessRequest::STATUS_PENDING`. -/
def RandomnessRequest.STATUS_PENDING : Nat := 0

/-- Constant `RandomnessRequest::STATUS_FULFILLED`. -/
def RandomnessRequest.STATUS_FULFILLED : Nat := 1

/-- The on-chain byte serialization of a `RandomnessRequest` account: the
8-byte Anchor account discriminator followed by the borsh encoding of the
fields in declaration order (u64/u32 little-endian, pubkeys and 32-byte
arrays raw, u8 as one byte). -/
def serializeRandomnessRequest (r : RandomnessRequest) : List Nat :=
  account_discriminator "RandomnessRequest" ++
  u64le r.request_id ++ u64le r.subscription_id ++
  pubkeyToBytes r.consumer_program ++ pubkeyToBytes r.requester ++
  u32le r.num_words ++ r.seed ++ u64le r.request_slot ++
  u32le r.callback_compute_limit ++ [r.status % 256] ++
  r.randomness ++ u64le r.fulfilled_slot ++ [r.bump % 256]

/-- Byte offset of the `status` field in the serialized `RandomnessRequest`:
discriminator (8) + request_id (8) + subscription_id (8) +
consumer_program (32) + requester (32) + num_words (4) + seed (32) +
request_slot (8) + callback_compute_limit (4). -/
def randomnessRequestStatusOffset : Nat :=
  8 + 8 + 8 + 32 + 32 + 4 + 32 + 8 + 4

/-! ## Coordinator program logic (`src/program/programs/vrf-sol/src`) -/

/-- The `VrfError` enum (errors.rs), in declaration order
(`6000 + index` on chain). -/
inductive VrfError where
  | RequestNotPending
  | InvalidEd25519Instruction
  | InvalidEd25519Program
  | InvalidSignatureCount
  | InvalidEd25519Pubkey
  | InvalidEd25519Message
  | InvalidEd25519InstructionIndex
  | Unauthorized
  | ZeroAddressNotAllowed
  | CounterOverflow
  | NumWordsTooLarge
  | InsufficientSubscriptionBalance
  | InvalidConsumerProgram
  | SubscriptionHasConsumers
  | CallbackFailed
  deriving Repr, DecidableEq

/-- The on-chain `verify_ed25519_instruction` (ed25519.rs): introspect the
transaction's instruction at index 0 and check it is a self-contained
Ed25519 verify of `request_id_le ‖ randomness` under the expected public
key. The instructions sysvar is modelled as the transaction's instruction
list. -/
def verify_ed25519_instruction (txInstructions : List Instruction)
    (expectedPubkey : List Nat) (requestId : Nat) (randomness : List Nat) :
    Except VrfError Unit :=
  match txInstructions.get? 0 with
  | none => .error .InvalidEd25519Instruction
  | some ix =>
    if ix.programId ≠ ed25519ProgramId then .error .InvalidEd25519Program
    else
      let data := ix.data
      if data.length < 16 then .error .InvalidEd25519Instruction
      else if data.getD 0 0 ≠ 1 then .error .InvalidSignatureCount
      else
        -- sig_offset is parsed but unused in the source (`let _ = sig_offset`)
        let sigIxIndex := leNat ((data.drop 4).take 2)
        let pubkeyOffset := leNat ((data.drop 6).take 2)
        let pubkeyIxIndex := leNat ((data.drop 8).take 2)
        let msgOffset := leNat ((data.drop 10).take 2)
        let msgSize := leNat ((data.drop 12).take 2)
        let msgIxIndex := leNat ((data.drop 14).take 2)
        if sigIxIndex ≠ 0xFFFF then .error .InvalidEd25519InstructionIndex
        else if pubkeyIxIndex ≠ 0xFFFF then .error .InvalidEd25519InstructionIndex
        else if msgIxIndex ≠ 0xFFFF then .error .InvalidEd25519InstructionIndex
        else if data.length < pubkeyOffset + 32 then .error .InvalidEd25519Instruction
        else if (data.drop pubkeyOffset).take 32 ≠ expectedPubkey then
          .error .InvalidEd25519Pubkey
        else if data.length < msgOffset + msgSize then .error .InvalidEd25519Instruction
        else if (data.drop msgOffset).take msgSize ≠ u64le requestId ++ randomness then
          .error .InvalidEd25519Message
        else .ok ()

/-- The expansion `expand_randomness(base_randomness, num_words)`
(fulfill_random_words.rs): `word[i] = SHA256(randomness ‖ i.to_le_bytes())`
for `i` in `0..num_words`. -/
def expand_randomness (baseRandomness : List Nat) (numWords : Nat) :
    List (List Nat) :=
  (List.range numWords).map (fun i => sha256 (baseRandomness ++ u32le i))

/-- Anchor `consumer_callback_discriminator()`:
`sha256("global:fulfill_random_words")[..8]`. -/
def consumer_callback_discriminator : List Nat :=
  (sha256 (strBytes "global:fulfill_random_words")).take 8

/-- An event emitted by the coordinator program. -/
inductive EmittedEvent where
  | RandomWordsFulfilled (request_id : Nat) (randomness : List Nat)
      (consumer_program : Pubkey)
  deriving Repr, DecidableEq

/-- An account passed in `remaining_accounts` (key plus its transaction-level
signer/writability flags). -/
structure AccountInfo where
  key : Pubkey
  isSigner : Bool
  isWritable : Bool
  deriving Repr, DecidableEq

/-- A transaction-aborting outcome: a program error, or a Rust panic
(`unwrap` on overflow), both of which fail the instruction. -/
inductive TxError where
  | program (e : VrfError)
  | panicked (msg : String)
  deriving Repr, DecidableEq

/-- Rust `u64::checked_add`. -/
def checkedAddU64 (a b : Nat) : Option Nat :=
  if a + b < 2 ^ 64 then some (a + b) else none

/-- The accounts and environment of one `fulfill_random_words` execution:
the Anchor `FulfillRandomWords` accounts with their chain state, the
transaction's instruction list (instructions sysvar), the consumer CPI
outcome, and the current slot. -/
structure FulfillCtx where
  txInstructions : List Instruction
  authority : Pubkey
  config : CoordinatorConfig
  configKey : Pubkey
  request : RandomnessRequest
  requestLamports : Nat
  requestData : List Nat
  requesterKey : Pubkey
  requesterLamports : Nat
  consumerProgramKey : Pubkey
  remainingAccounts : List AccountInfo
  cpiSucceeds : Bool
  currentSlot : Nat

/-- The post-state of a successful `fulfill_random_words` execution. -/
structure FulfillResult where
  request : RandomnessRequest
  requestData : List Nat
  requestLamports : Nat
  requestOwner : Pubkey
  requesterLamports : Nat
  callbackInstruction : Instruction
  events : List EmittedEvent
  deriving Repr, DecidableEq

/-- The on-chain `fulfill_random_words::handler`
(fulfill_random_words.rs), together with the Anchor `FulfillRandomWords`
account constraints that run before it: verify the Ed25519 proof, expand
the randomness, write the request state, CPI into the consumer with the
config PDA as first (signing) account, close the request account to the
requester, and emit `RandomWordsFulfilled`. -/
def fulfill_random_words_handler (ctx : FulfillCtx) (requestId : Nat)
    (randomness : List Nat) : Except TxError FulfillResult :=
  -- Anchor constraints of `FulfillRandomWords`
  if ctx.config.authority ≠ ctx.authority then .error (.program .Unauthorized)
  else if ctx.request.status ≠ RandomnessRequest.STATUS_PENDING then
    .error (.program .RequestNotPending)
  else if ctx.requesterKey ≠ ctx.request.requester then
    .error (.program .Unauthorized)
  else if ctx.consumerProgramKey ≠ ctx.request.consumer_program then
    .error (.program .InvalidConsumerProgram)
  else
    -- 1. Verify Ed25519 signature proof
    match verify_ed25519_instruction ctx.txInstructions
        (pubkeyToBytes ctx.config.authority) requestId randomness with
    | .error e => .error (.program e)
    | .ok _ =>
      let numWords := ctx.request.num_words
      -- 2. Expand base randomness into num_words values
      let randomWords := expand_randomness randomness numWords
      -- 3. Update request state
      let request := { ctx.request with
        randomness := randomness
        status := RandomnessRequest.STATUS_FULFILLED
        fulfilled_slot := ctx.currentSlot }
      -- 4. CPI into the consumer program's fulfill_random_words instruction
      let callbackData :=
        consumer_callback_discriminator ++ u64le requestId ++ u32le numWords ++
        randomWords.flatten
      let callbackAccounts :=
        AccountMeta.newReadonly ctx.configKey true ::
        ctx.remainingAccounts.map (fun a =>
          if a.isWritable then AccountMeta.new a.key a.isSigner
          else AccountMeta.newReadonly a.key a.isSigner)
      let callbackIx : Instruction :=
        { programId := ctx.consumerProgramKey
        , accounts := callbackAccounts
        , data := callbackData }
      if !ctx.cpiSucceeds then .error (.program .CallbackFailed)
      else
        -- 5. Close request PDA, return rent to requester
        match checkedAddU64 ctx.requesterLamports ctx.requestLamports with
        | none => .error (.panicked "checked_add overflow")
        | some newRequesterLamports =>
          .ok
            { request := request
            , requestData := List.replicate ctx.requestData.length 0
            , requestLamports := 0
            , requestOwner := systemProgramId
            , requesterLamports := newRequesterLamports
            , callbackInstruction := callbackIx
            , events :=
                [.RandomWordsFulfilled requestId randomness ctx.consumerProgramKey] }

/-! ## Concrete instances used by the claim theorems and witnesses -/

/-- Concrete oracle configuration with a positive priority fee. -/
def c5Cfg : OracleConfig :=
  { hmac_secret := strBytes "secret"
  , authority_keypair := ⟨List.replicate 32 7, fun _ => List.replicate 64 9⟩
  , program_id := .named "Coord"
  , priority_fee_micro_lamports := 1
  , max_retries := 5
  , initial_retry_delay_ms := 500 }

/-- Concrete request event. -/
def c5Event : RandomnessRequestedEvent :=
  ⟨1, List.replicate 32 4, List.replicate 32 17, 100⟩

/-- Concrete oracle authority key bytes for the success-path witnesses. -/
def okAuthorityBytes : List Nat := List.replicate 32 7

/-- Concrete keypair for the success-path witnesses. -/
def okKeypair : Keypair := ⟨okAuthorityBytes, fun _ => List.replicate 64 9⟩

/-- Concrete base randomness for the success-path witnesses. -/
def okRandomness : List Nat := List.replicate 32 3

/-- A concrete `fulfill_random_words` context on which every check passes:
the transaction's first instruction is the oracle's Ed25519 proof for
request 1 with `okRandomness`. -/
def okCtx : FulfillCtx :=
  { txInstructions :=
      [build_ed25519_instruction okKeypair (u64le 1 ++ okRandomness)]
  , authority := .raw okAuthorityBytes
  , config :=
      { admin := .raw (List.replicate 32 1)
      , authority := .raw okAuthorityBytes
      , fee_per_word := 0
      , max_num_words := 10
      , request_counter := 2
      , subscription_counter := 1
      , bump := 254 }
  , configKey := .pda (.named "Coord") [strBytes "coordinator-config"]
  , request :=
      { request_id := 1
      , subscription_id := 1
      , consumer_program := .named "Consumer"
      , requester := .raw (List.replicate 32 4)
      , num_words := 1
      , seed := List.replicate 32 17
      , request_slot := 100
      , callback_compute_limit := 200000
      , status := 0
      , randomness := List.replicate 32 0
      , fulfilled_slot := 0
      , bump := 255 }
  , requestLamports := 890880
  , requestData := List.replicate 178 11
  , requesterKey := .raw (List.replicate 32 4)
  , requesterLamports := 1000
  , consumerProgramKey := .named "Consumer"
  , remainingAccounts := [⟨.raw (List.replicate 32 8), false, true⟩]
  , cpiSucceeds := true
  , currentSlot := 123 }

/-- The result of the successful concrete run. -/
def okRes : FulfillResult :=
  { request := { okCtx.request with
      randomness := okRandomness
      status := RandomnessRequest.STATUS_FULFILLED
      fulfilled_slot := okCtx.currentSlot }
  , requestData := List.replicate okCtx.requestData.length 0
  , requestLamports := 0
  , requestOwner := systemProgramId
  , requesterLamports := okCtx.requesterLamports + okCtx.requestLamports
  , callbackInstruction :=
      { programId := okCtx.consumerProgramKey
      , accounts := AccountMeta.newReadonly okCtx.configKey true ::
          okCtx.remainingAccounts.map (fun a =>
            if a.isWritable then AccountMeta.new a.key a.isSigner
            else AccountMeta.newReadonly a.key a.isSigner)
      , data := consumer_callback_discriminator ++ u64le 1 ++
          u32le okCtx.request.num_words ++
          (expand_randomness okRandomness okCtx.request.num_words).flatten }
  , events := [.RandomWordsFulfilled 1 okRandomness okCtx.consumerProgramKey] }

/-- A pending request account for id 9, laid out exactly as the catch-up
scan expects it (its own 121-byte layout with the status byte at
offset 120). -/
def c7Account : List Nat :=
  account_discriminator "RandomnessRequest" ++ u64le 9 ++
  List.replicate 32 4 ++ List.replicate 32 17 ++ u64le 100 ++
  List.replicate 32 6 ++ [0]

/-- A live-stream log line carrying the `RandomnessRequested` event for the
same request id 9 (base64 of the 8-byte event discriminator followed by the
80-byte event body: id 9, requester `4*32`, seed `17*32`, slot 100). -/
def c7LogLine : List Char :=
  ("Program data: " ++
   "CkC3HWg/WpUJAAAAAAAAAAQEBAQEBAQEBAQEBAQEBAQEBAQEBAQEBAQEBAQEBAQEERERERERERERERERERERERERERERERERERERERERERFkAAAAAAAAAA==").toList

/-- The event both listener paths decode. -/
def c7Event : RandomnessRequestedEvent :=
  { request_id := 9
  , requester := List.replicate 32 4
  , seed := List.replicate 32 17
  , request_slot := 100 }

/-- The substrings `is_non_retryable` actually tests, in its order: the two
rendered error codes, then the five string-based names — including
`CompressedAccountMismatch`, which the claim omits. -/
def nonRetryableMarkers : List String :=
  ["0x1770", "0x1779", "RequestNotPending", "Unauthorized",
   "AccountNotInitialized", "already in use", "CompressedAccountMismatch"]

/-- A pending on-chain request (state.rs layout) whose seed bytes are all 1:
the serialized byte at offset 120 — which the catch-up filter expects to be
the status — is `seed[28] = 1`. -/
def c10PendingSeed1 : RandomnessRequest :=
  { request_id := 7
  , subscription_id := 1
  , consumer_program := .raw (List.replicate 32 2)
  , requester := .raw (List.replicate 32 3)
  , num_words := 1
  , seed := List.replicate 32 1
  , request_slot := 100
  , callback_compute_limit := 200000
  , status := 0
  , randomness := List.replicate 32 0
  , fulfilled_slot := 0
  , bump := 255 }

/-- The same pending request with an all-zero seed, on which the mis-placed
status filter happens to pass. -/
def c10PendingSeed0 : RandomnessRequest :=
  { c10PendingSeed1 with seed := List.replicate 32 0 }

/-! ## General lemmas -/

/-- Every SHA-256 digest is 32 bytes. -/
theorem sha256_length (msg : List Nat) : (sha256 msg).length = 32 := by
  simp [sha256, sha256StateBytes, u32be]

/-- Every HMAC-SHA256 tag is 32 bytes. -/
theorem hmacSha256_length (key msg : List Nat) :
    (hmacSha256 key msg).length = 32 := by
  unfold hmacSha256
  exact sha256_length _

/-- The serialization `u64le` always produces 8 bytes. -/
theorem u64le_length (n : Nat) : (u64le n).length = 8 := rfl

/-! ## Claim C1 -/

/-- C1: for every secret byte string, 32-byte seed, request slot and request
id, `compute_randomness` returns exactly the 32-byte value
`HMAC-SHA256(secret, seed ‖ u64_le(request_slot) ‖ u64_le(request_id))`,
and two invocations on the same inputs yield identical outputs. -/
theorem compute_randomness_is_hmac (secret seed : List Nat)
    (slot reqId : Nat) (hseed : seed.length = 32) :
    compute_randomness secret seed slot reqId =
      hmacSha256 secret (seed ++ u64le slot ++ u64le reqId) ∧
    (compute_randomness secret seed slot reqId).length = 32 ∧
    ∀ secret2 seed2 slot2 reqId2, secret2 = secret → seed2 = seed →
      slot2 = slot → reqId2 = reqId →
      compute_randomness secret2 seed2 slot2 reqId2 =
        compute_randomness secret seed slot reqId := by
  refine ⟨?_, ?_, ?_⟩
  · simp [compute_randomness, HmacSha256Mac.newFromSlice, HmacSha256Mac.update,
      HmacSha256Mac.finalize]
  · exact hmacSha256_length _ _
  · rintro _ _ _ _ rfl rfl rfl rfl
    rfl

/-- Witness for C1 at a concrete input. -/
theorem compute_randomness_is_hmac_witness :
    (List.replicate 32 17 : List Nat).length = 32 ∧
    compute_randomness (strBytes "test-secret") (List.replicate 32 17) 100 42 =
      hmacSha256 (strBytes "test-secret")
        (List.replicate 32 17 ++ u64le 100 ++ u64le 42) :=
  ⟨by simp,
   (compute_randomness_is_hmac (strBytes "test-secret") (List.replicate 32 17)
      100 42 (by simp)).1⟩

/-! ## Claim C2 -/

/-- C2: for every request id and 32-byte randomness, the Ed25519 precompile
instruction built by the oracle has the §4.2 data layout: header
`1, 0`, then the seven u16 LE fields with signature_offset 48,
public_key_offset 16, message_data_offset 112, message_data_size `len M`,
all instruction indices `0xFFFF`; the 32-byte public key at offset 16, the
64-byte signature at offset 48, and at offset 112 the 40-byte message
`M = u64_le(request_id) ‖ randomness`. -/
theorem ed25519_instruction_layout (kp : Keypair) (reqId : Nat)
    (randomness : List Nat)
    (hpk : kp.pubkeyBytes.length = 32) (hrand : randomness.length = 32)
    (hsig : (kp.sign (u64le reqId ++ randomness)).length = 64) :
    (u64le reqId ++ randomness).length = 40 ∧
    (build_ed25519_instruction kp (u64le reqId ++ randomness)).data.take 16 =
      [1, 0] ++ u16le 48 ++ u16le 0xFFFF ++ u16le 16 ++ u16le 0xFFFF ++
      u16le 112 ++ u16le 40 ++ u16le 0xFFFF ∧
    ((build_ed25519_instruction kp (u64le reqId ++ randomness)).data.drop 16).take 32 =
      kp.pubkeyBytes ∧
    ((build_ed25519_instruction kp (u64le reqId ++ randomness)).data.drop 48).take 64 =
      kp.sign (u64le reqId ++ randomness) ∧
    (build_ed25519_instruction kp (u64le reqId ++ randomness)).data.drop 112 =
      u64le reqId ++ randomness := by
  have hM : (u64le reqId ++ randomness).length = 40 := by
    simp [u64le, hrand]
  have hdata : (build_ed25519_instruction kp (u64le reqId ++ randomness)).data =
      [1, 0, 48, 0, 255, 255, 16, 0, 255, 255, 112, 0, 40, 0, 255, 255] ++
      (kp.pubkeyBytes ++
        (kp.sign (u64le reqId ++ randomness) ++ (u64le reqId ++ randomness))) := by
    simp [build_ed25519_instruction, u16le, hM]
  have h16 : ([1, 0, 48, 0, 255, 255, 16, 0, 255, 255, 112, 0, 40, 0, 255, 255] :
      List Nat).length = 16 := rfl
  have hdrop16 :
      (build_ed25519_instruction kp (u64le reqId ++ randomness)).data.drop 16 =
      kp.pubkeyBytes ++
        (kp.sign (u64le reqId ++ randomness) ++ (u64le reqId ++ randomness)) := by
    rw [hdata, List.drop_left' h16]
  have hdrop48 :
      (build_ed25519_instruction kp (u64le reqId ++ randomness)).data.drop 48 =
      kp.sign (u64le reqId ++ randomness) ++ (u64le reqId ++ randomness) := by
    have : (48 : Nat) = 16 + 32 := rfl
    rw [this, ← List.drop_drop, hdrop16, List.drop_left' hpk]
  have hdrop112 :
      (build_ed25519_instruction kp (u64le reqId ++ randomness)).data.drop 112 =
      u64le reqId ++ randomness := by
    have : (112 : Nat) = 48 + 64 := rfl
    rw [this, ← List.drop_drop, hdrop48, List.drop_left' hsig]
  refine ⟨hM, ?_, ?_, ?_, hdrop112⟩
  · rw [hdata, List.take_left' h16]
    simp [u16le]
  · rw [hdrop16, List.take_left' hpk]
  · rw [hdrop48, List.take_left' hsig]

/-- Witness for C2 at a concrete keypair, request id and randomness. -/
theorem ed25519_instruction_layout_witness :
    (List.replicate 32 7 : List Nat).length = 32 ∧
    (List.replicate 32 3 : List Nat).length = 32 ∧
    ((Keypair.mk (List.replicate 32 7) (fun _ => List.replicate 64 9)).sign
        (u64le 42 ++ List.replicate 32 3)).length = 64 ∧
    (u64le 42 ++ List.replicate 32 3).length = 40 :=
  ⟨by simp, by simp, by simp,
   (ed25519_instruction_layout
      (Keypair.mk (List.replicate 32 7) (fun _ => List.replicate 64 9)) 42
      (List.replicate 32 3) (by simp) (by simp) (by simp)).1⟩

/-! ## Claim C3 -/

/-- C3: evaluation of `build_fulfill_instruction` at a concrete input. The
instruction the oracle assembles carries the `global:fulfill_randomness`
discriminator — not `global:fulfill_random_words` — its config account is
the PDA of seed `"vrf-config"` — not `"coordinator-config"` — and its
account list has exactly the four entries authority, config, request PDA,
instructions sysvar (no requester, consumer program or callback accounts),
diverging from the account list of the wired `fulfill_random_words`
instruction of the coordinator program. -/
theorem build_fulfill_instruction_divergence :
    (build_fulfill_instruction (.named "Coord") (.raw (List.replicate 32 5)) 1
        (List.replicate 32 0)).data.take 8 = fulfill_discriminator ∧
    fulfill_discriminator ≠ consumer_callback_discriminator ∧
    (build_fulfill_instruction (.named "Coord") (.raw (List.replicate 32 5)) 1
        (List.replicate 32 0)).accounts.length = 4 ∧
    (build_fulfill_instruction (.named "Coord") (.raw (List.replicate 32 5)) 1
        (List.replicate 32 0)).accounts.map (fun a => a.pubkey) =
      [.raw (List.replicate 32 5),
       .pda (.named "Coord") [strBytes "vrf-config"],
       .pda (.named "Coord") [strBytes "request", u64le 1],
       instructionsSysvarId] ∧
    [strBytes "vrf-config"] ≠ [strBytes "coordinator-config"] := by
  refine ⟨by decide, by decide, rfl, rfl, by decide⟩

/-! ## Claim C5 -/

/-- If the transaction's instruction at index 0 does not target the native
Ed25519 program, on-chain verification fails with `InvalidEd25519Program`. -/
theorem verify_ed25519_wrong_program (instrs : List Instruction)
    (ix : Instruction) (h0 : instrs.get? 0 = some ix)
    (hprog : ix.programId ≠ ed25519ProgramId)
    (pk : List Nat) (reqId : Nat) (rnd : List Nat) :
    verify_ed25519_instruction instrs pk reqId rnd =
      .error .InvalidEd25519Program := by
  unfold verify_ed25519_instruction
  rw [h0]
  simp [hprog]

/-- A successful on-chain Ed25519 verification forces the transaction's
first instruction to target the native Ed25519 program. -/
theorem verify_ed25519_ok_first_instruction (instrs : List Instruction)
    (pk : List Nat) (reqId : Nat) (rnd : List Nat)
    (h : verify_ed25519_instruction instrs pk reqId rnd = .ok ()) :
    ∃ ix, instrs.get? 0 = some ix ∧ ix.programId = ed25519ProgramId := by
  unfold verify_ed25519_instruction at h
  match h0 : instrs.get? 0 with
  | none => rw [h0] at h; simp at h
  | some ix =>
    rw [h0] at h
    refine ⟨ix, rfl, ?_⟩
    by_contra hne
    simp [hne] at h

/-- If the first transaction instruction does not target the Ed25519
program, the `fulfill_random_words` instruction cannot succeed. -/
theorem fulfill_handler_fails_without_first_ed25519 (ctx : FulfillCtx)
    (reqId : Nat) (rnd : List Nat) (ix : Instruction)
    (h0 : ctx.txInstructions.get? 0 = some ix)
    (hprog : ix.programId ≠ ed25519ProgramId) (res : FulfillResult) :
    fulfill_random_words_handler ctx reqId rnd ≠ .ok res := by
  intro h
  unfold fulfill_random_words_handler at h
  rw [verify_ed25519_wrong_program ctx.txInstructions ix h0 hprog] at h
  repeat' split at h
  all_goals simp_all

/-- The compute-budget program id differs from the Ed25519 program id. -/
theorem computeBudget_ne_ed25519 : computeBudgetProgramId ≠ ed25519ProgramId := by
  simp [computeBudgetProgramId, ed25519ProgramId]

/-- With a positive priority fee, the oracle's first instruction is the
compute-budget instruction. -/
theorem fulfill_request_first_instruction_with_fee (config : OracleConfig)
    (event : RandomnessRequestedEvent)
    (hfee : config.priority_fee_micro_lamports > 0) :
    (fulfill_request_instructions config event).get? 0 =
      some (build_set_compute_unit_price_instruction
        config.priority_fee_micro_lamports) := by
  unfold fulfill_request_instructions
  simp [hfee]

/-- C5: the on-chain Ed25519 check loads the instruction at fixed index 0,
so whenever the oracle is configured with a positive priority fee (which
prepends the compute-budget instruction), verification of the transaction it
assembles returns `InvalidEd25519Program` and the fulfill instruction fails;
verification can only succeed when the first instruction targets the
Ed25519 precompile. -/
theorem ed25519_verification_requires_first_instruction
    (config : OracleConfig) (event : RandomnessRequestedEvent)
    (expectedPubkey : List Nat) (reqId : Nat) (rnd : List Nat)
    (hfee : config.priority_fee_micro_lamports > 0) :
    verify_ed25519_instruction (fulfill_request_instructions config event)
        expectedPubkey reqId rnd = .error .InvalidEd25519Program ∧
    (∀ (ctx : FulfillCtx) (reqId2 : Nat) (rnd2 : List Nat)
        (res : FulfillResult),
        ctx.txInstructions = fulfill_request_instructions config event →
        fulfill_random_words_handler ctx reqId2 rnd2 ≠ .ok res) ∧
    (∀ (instrs : List Instruction) (pk : List Nat) (reqId3 : Nat)
        (rnd3 : List Nat),
        verify_ed25519_instruction instrs pk reqId3 rnd3 = .ok () →
        ∃ ix, instrs.get? 0 = some ix ∧ ix.programId = ed25519ProgramId) := by
  refine ⟨?_, ?_, ?_⟩
  · exact verify_ed25519_wrong_program _ _
      (fulfill_request_first_instruction_with_fee config event hfee)
      computeBudget_ne_ed25519 _ _ _
  · intro ctx reqId2 rnd2 res hctx
    have h0 : ctx.txInstructions.get? 0 =
        some (build_set_compute_unit_price_instruction
          config.priority_fee_micro_lamports) := by
      rw [hctx]
      exact fulfill_request_first_instruction_with_fee config event hfee
    exact fulfill_handler_fails_without_first_ed25519 ctx reqId2 rnd2 _ h0
      (by simpa [build_set_compute_unit_price_instruction] using
        computeBudget_ne_ed25519) res
  · exact fun instrs pk reqId3 rnd3 h =>
      verify_ed25519_ok_first_instruction instrs pk reqId3 rnd3 h

/-- Witness for C5 at a concrete configuration and event. -/
theorem ed25519_verification_requires_first_instruction_witness :
    c5Cfg.priority_fee_micro_lamports > 0 ∧
    verify_ed25519_instruction (fulfill_request_instructions c5Cfg c5Event)
        [] 0 [] = .error .InvalidEd25519Program :=
  ⟨by decide,
   (ed25519_verification_requires_first_instruction c5Cfg c5Event [] 0 []
      (by decide)).1⟩

/-! ## Claims C4 and C6: the `fulfill_random_words` success path -/

/-- Rust `u64::checked_add` succeeds exactly on sums below `2 ^ 64`. -/
theorem checkedAddU64_eq_some (a b v : Nat) :
    checkedAddU64 a b = some v ↔ a + b < 2 ^ 64 ∧ v = a + b := by
  unfold checkedAddU64
  split <;> simp_all
  omega

/-- Inversion of a successful `fulfill_random_words` execution: the result
is exactly the record the handler builds. -/
theorem fulfill_handler_ok_elim (ctx : FulfillCtx) (requestId : Nat)
    (randomness : List Nat) (res : FulfillResult)
    (h : fulfill_random_words_handler ctx requestId randomness = .ok res) :
    res =
      { request := { ctx.request with
          randomness := randomness
          status := RandomnessRequest.STATUS_FULFILLED
          fulfilled_slot := ctx.currentSlot }
      , requestData := List.replicate ctx.requestData.length 0
      , requestLamports := 0
      , requestOwner := systemProgramId
      , requesterLamports := ctx.requesterLamports + ctx.requestLamports
      , callbackInstruction :=
          { programId := ctx.consumerProgramKey
          , accounts := AccountMeta.newReadonly ctx.configKey true ::
              ctx.remainingAccounts.map (fun a =>
                if a.isWritable then AccountMeta.new a.key a.isSigner
                else AccountMeta.newReadonly a.key a.isSigner)
          , data := consumer_callback_discriminator ++ u64le requestId ++
              u32le ctx.request.num_words ++
              (expand_randomness randomness ctx.request.num_words).flatten }
      , events :=
          [.RandomWordsFulfilled requestId randomness ctx.consumerProgramKey] } := by
  unfold fulfill_random_words_handler at h
  repeat' split at h
  all_goals simp_all [checkedAddU64_eq_some]

/-- C6: on every successful on-chain fulfillment, the fulfill instruction
itself closes the request account in the same transaction: after writing the
randomness and `Fulfilled` status, it zeroes the request's lamports and adds
all of them to the requester's balance, reassigns the account to the system
program, zeroes every data byte, and emits `RandomWordsFulfilled`. -/
theorem fulfill_closes_request (ctx : FulfillCtx) (requestId : Nat)
    (randomness : List Nat) (res : FulfillResult)
    (h : fulfill_random_words_handler ctx requestId randomness = .ok res) :
    res.request.randomness = randomness ∧
    res.request.status = RandomnessRequest.STATUS_FULFILLED ∧
    res.requestLamports = 0 ∧
    res.requesterLamports = ctx.requesterLamports + ctx.requestLamports ∧
    res.requestOwner = systemProgramId ∧
    res.requestData = List.replicate ctx.requestData.length 0 ∧
    res.events =
      [.RandomWordsFulfilled requestId randomness ctx.consumerProgramKey] := by
  rw [fulfill_handler_ok_elim ctx requestId randomness res h]
  exact ⟨rfl, rfl, rfl, rfl, rfl, rfl, rfl⟩

/-- C4: on every successful on-chain fulfillment the coordinator derives
`word[i] = SHA256(randomness ‖ u32_le(i))` for `i < num_words` and CPIs into
the consumer program with data
`SHA256("global:fulfill_random_words")[..8] ‖ u64_le(request_id) ‖
u32_le(num_words) ‖ words`, the first CPI account being the config PDA as
signer and the rest exactly the transaction's remaining accounts in order. -/
theorem fulfill_callback_shape (ctx : FulfillCtx) (requestId : Nat)
    (randomness : List Nat) (res : FulfillResult)
    (h : fulfill_random_words_handler ctx requestId randomness = .ok res) :
    res.callbackInstruction.data =
      consumer_callback_discriminator ++ u64le requestId ++
      u32le ctx.request.num_words ++
      (expand_randomness randomness ctx.request.num_words).flatten ∧
    (∀ i, i < ctx.request.num_words →
        (expand_randomness randomness ctx.request.num_words).get? i =
          some (sha256 (randomness ++ u32le i))) ∧
    res.callbackInstruction.programId = ctx.consumerProgramKey ∧
    res.callbackInstruction.accounts.head? =
      some (AccountMeta.newReadonly ctx.configKey true) ∧
    res.callbackInstruction.accounts.tail.map (fun a => a.pubkey) =
      ctx.remainingAccounts.map (fun a => a.key) ∧
    res.callbackInstruction.accounts.tail.map (fun a => a.isSigner) =
      ctx.remainingAccounts.map (fun a => a.isSigner) ∧
    res.callbackInstruction.accounts.tail.map (fun a => a.isWritable) =
      ctx.remainingAccounts.map (fun a => a.isWritable) := by
  rw [fulfill_handler_ok_elim ctx requestId randomness res h]
  refine ⟨rfl, ?_, rfl, rfl, ?_, ?_, ?_⟩
  · intro i hi
    simp [expand_randomness, List.getElem?_map, List.getElem?_range, hi]
  all_goals
    simp only [List.tail_cons, List.map_map]
    refine List.map_congr_left ?_
    intro a _
    by_cases hw : a.isWritable <;>
      simp [hw, AccountMeta.new, AccountMeta.newReadonly]

/-- The concrete run succeeds. -/
theorem fulfill_handler_ok_run :
    fulfill_random_words_handler okCtx 1 okRandomness = Except.ok okRes := by
  rfl

/-- Witness for C6 at the concrete successful run. -/
theorem fulfill_closes_request_witness :
    okRes.requestLamports = 0 ∧
    okRes.requesterLamports = okCtx.requesterLamports + okCtx.requestLamports ∧
    okRes.requestOwner = systemProgramId ∧
    okRes.requestData = List.replicate okCtx.requestData.length 0 :=
  have h := fulfill_closes_request okCtx 1 okRandomness okRes (by rfl)
  ⟨h.2.2.1, h.2.2.2.1, h.2.2.2.2.1, h.2.2.2.2.2.1⟩

/-- Witness for C4 at the concrete successful run. -/
theorem fulfill_callback_shape_witness :
    okRes.callbackInstruction.data =
      consumer_callback_discriminator ++ u64le 1 ++
      u32le okCtx.request.num_words ++
      (expand_randomness okRandomness okCtx.request.num_words).flatten ∧
    okRes.callbackInstruction.accounts.head? =
      some (AccountMeta.newReadonly okCtx.configKey true) :=
  have h := fulfill_callback_shape okCtx 1 okRandomness okRes (by rfl)
  ⟨h.1, h.2.2.2.1⟩

/-! ## Claim C7 -/

/-- C7: the catch-up scan does not consult the deduplicator — the
`Deduplicator` is created inside `listen_for_events` and only the live path
inserts into it — so when catch-up emits request 9 and the live stream later
delivers the same request 9 to a fresh deduplicator, the queue receives two
messages for id 9 rather than one. -/
theorem listener_dedup_gap :
    catch_up_pending_requests [c7Account] = [.Regular c7Event] ∧
    (process_log_lines [c7LogLine] (event_discriminator "RandomnessRequested")
        (event_discriminator "CompressedRandomnessRequested")
        Deduplicator.new).1 = [.Regular c7Event] ∧
    ((catch_up_pending_requests [c7Account] ++
      (process_log_lines [c7LogLine]
        (event_discriminator "RandomnessRequested")
        (event_discriminator "CompressedRandomnessRequested")
        Deduplicator.new).1).filter
        (fun m => match m with
          | .Regular e => e.request_id == 9
          | .Compressed e _ => e.request_id == 9)).length = 2 := by
  refine ⟨by decide, by decide, by decide⟩

/-! ## Claim C8 -/

/-- C8 counterexample: with the default settings, five consecutive
`BlockhashNotFound` failures do NOT produce the "max retries exceeded"
error — the guard `attempt < max_retries - 1` routes the final attempt's
error into the immediate-return arm, so the last `BlockhashNotFound` error
itself is returned (the "max retries" message is unreachable for
`max_retries ≥ 1`). -/
theorem send_with_retries_counterexample :
    (send_with_retries defaultMaxRetries defaultInitialRetryDelayMs 7
        ⟨fun _ => .ok 1, fun _ => .failed "BlockhashNotFound"⟩).1 =
      .error "send_and_confirm_transaction failed: BlockhashNotFound" ∧
    (send_with_retries defaultMaxRetries defaultInitialRetryDelayMs 7
        ⟨fun _ => .ok 1, fun _ => .failed "BlockhashNotFound"⟩).1 ≠
      .error "max retries (5) exceeded for request_id=7" ∧
    strContains "send_and_confirm_transaction failed: BlockhashNotFound"
      "max retries" = false := by
  decide

/-- C8 (amended): each attempt fetches a fresh blockhash and submits; on a
`BlockhashNotFound` error with attempts remaining the task sleeps the
current delay and doubles it (capped at 60 s); any other error returns
immediately; when every attempt fails with `BlockhashNotFound` the final
attempt's error is returned directly (not "max retries exceeded"); with the
defaults `max_retries = 5`, initial delay 500 ms, the observed delays are
500, 1000, 2000, 4000 ms before a fifth attempt. -/
theorem send_with_retries_backoff (bnfErr otherErr sig : String)
    (hbnf : strContains bnfErr "BlockhashNotFound" = true)
    (hother : strContains otherErr "BlockhashNotFound" = false) :
    send_with_retries 5 500 0
        ⟨fun _ => .ok 1,
         fun a => if a < 4 then .failed bnfErr else .confirmed sig⟩ =
      (.ok sig, [500, 1000, 2000, 4000]) ∧
    send_with_retries 5 500 0 ⟨fun _ => .ok 1, fun _ => .failed bnfErr⟩ =
      (.error ("send_and_confirm_transaction failed: " ++ bnfErr),
       [500, 1000, 2000, 4000]) ∧
    send_with_retries 5 500 0 ⟨fun _ => .ok 1, fun _ => .failed otherErr⟩ =
      (.error ("send_and_confirm_transaction failed: " ++ otherErr), []) ∧
    send_with_retries 12 500 0 ⟨fun _ => .ok 1, fun _ => .failed bnfErr⟩ =
      (.error ("send_and_confirm_transaction failed: " ++ bnfErr),
       [500, 1000, 2000, 4000, 8000, 16000, 32000, 60000, 60000, 60000, 60000]) ∧
    defaultMaxRetries = 5 ∧ defaultInitialRetryDelayMs = 500 := by
  refine ⟨?_, ?_, ?_, ?_, rfl, rfl⟩ <;>
    simp [send_with_retries, sendWithRetriesLoop, hbnf, hother]

/-- Witness for C8 at concrete error strings. -/
theorem send_with_retries_backoff_witness :
    strContains "BlockhashNotFound" "BlockhashNotFound" = true ∧
    strContains "connection refused" "BlockhashNotFound" = false ∧
    send_with_retries 5 500 0
        ⟨fun _ => .ok 1,
         fun a => if a < 4 then .failed "BlockhashNotFound"
                  else .confirmed "SIG"⟩ =
      (.ok "SIG", [500, 1000, 2000, 4000]) :=
  ⟨by decide, by decide,
   (send_with_retries_backoff "BlockhashNotFound" "connection refused" "SIG"
      (by decide) (by decide)).1⟩

/-! ## Claim C9 -/

/-- C9 counterexample: the error string `"CompressedAccountMismatch"`
contains none of the six substrings the claim lists, yet the fulfiller
classifies it as non-retryable and does not increment `requests_failed`. -/
theorem error_classification_counterexample :
    ((["RequestNotPending", "Unauthorized", "AccountNotInitialized",
       "already in use", "0x1770", "0x1779"] : List String).all
      (fun pat => !strContains "CompressedAccountMismatch" pat)) = true ∧
    is_non_retryable "CompressedAccountMismatch" = true ∧
    handle_fulfillment_error "CompressedAccountMismatch" 0 = (0, .warnLevel) := by
  decide

/-- C9 (amended): an error whose rendered string contains one of
`0x1770`, `0x1779`, `RequestNotPending`, `Unauthorized`,
`AccountNotInitialized`, `already in use` or `CompressedAccountMismatch`
is logged as a warning and does not increment `requests_failed`; an error
containing none of these seven substrings increments `requests_failed` by
exactly one and is logged at error level. -/
theorem error_classification (e : String) (failed : Nat) :
    ((∃ pat ∈ nonRetryableMarkers, strContains e pat = true) →
      handle_fulfillment_error e failed = (failed, .warnLevel)) ∧
    ((∀ pat ∈ nonRetryableMarkers, strContains e pat = false) →
      handle_fulfillment_error e failed = (failed + 1, .errorLevel)) := by
  have hc1 : hexCode errorRequestNotPending = "0x1770" := by decide
  have hc2 : hexCode errorUnauthorized = "0x1779" := by decide
  constructor
  · rintro ⟨pat, hmem, hc⟩
    have hnr : is_non_retryable e = true := by
      simp only [nonRetryableMarkers, List.mem_cons, List.not_mem_nil,
        or_false] at hmem
      rcases hmem with rfl | rfl | rfl | rfl | rfl | rfl | rfl
      all_goals simp [is_non_retryable, hc1, hc2, hc]
    simp [handle_fulfillment_error, hnr]
  · intro h
    have h1 := h "0x1770" (by simp [nonRetryableMarkers])
    have h2 := h "0x1779" (by simp [nonRetryableMarkers])
    have h3 := h "RequestNotPending" (by simp [nonRetryableMarkers])
    have h4 := h "Unauthorized" (by simp [nonRetryableMarkers])
    have h5 := h "AccountNotInitialized" (by simp [nonRetryableMarkers])
    have h6 := h "already in use" (by simp [nonRetryableMarkers])
    have h7 := h "CompressedAccountMismatch" (by simp [nonRetryableMarkers])
    have hnr : is_non_retryable e = false := by
      simp [is_non_retryable, hc1, hc2, h1, h2, h3, h4, h5, h6, h7]
    simp [handle_fulfillment_error, hnr]

/-- Witness for C9: a matching error is skipped, an unknown one counted. -/
theorem error_classification_witness :
    handle_fulfillment_error "custom program error: 0x1770" 3 =
      (3, .warnLevel) ∧
    handle_fulfillment_error "connection refused" 3 = (4, .errorLevel) :=
  ⟨(error_classification "custom program error: 0x1770" 3).1
      ⟨"0x1770", by decide, by decide⟩,
   (error_classification "connection refused" 3).2 (by decide)⟩

/-! ## Claim C10 -/

/-- C10: the coordinator's `RandomnessRequest` layout puts `status` at
offset 136, but the catch-up scan filters the status byte at offset 120 —
inside the seed field — and parses requester, seed and request_slot at
offsets that fall inside subscription_id/consumer_program/requester.
A genuinely pending request with a nonzero `seed[28]` is not matched at
all, and when the filter does pass, every parsed field except `request_id`
differs from the account's true fields. -/
theorem catch_up_layout_divergence :
    randomnessRequestStatusOffset = 136 ∧
    ((serializeRandomnessRequest c10PendingSeed1).drop
        randomnessRequestStatusOffset).take 1 = [0] ∧
    (serializeRandomnessRequest c10PendingSeed1).getD 120 0 = 1 ∧
    matchesCatchUpFilters (serializeRandomnessRequest c10PendingSeed1) = false ∧
    matchesCatchUpFilters (serializeRandomnessRequest c10PendingSeed0) = true ∧
    (catchUpParseAccount (serializeRandomnessRequest c10PendingSeed0)).map
        (fun e => e.request_id) = some 7 ∧
    (catchUpParseAccount (serializeRandomnessRequest c10PendingSeed0)).map
        (fun e => e.requester) ≠
      some (pubkeyToBytes c10PendingSeed0.requester) ∧
    (catchUpParseAccount (serializeRandomnessRequest c10PendingSeed0)).map
        (fun e => e.seed) ≠ some c10PendingSeed0.seed ∧
    (catchUpParseAccount (serializeRandomnessRequest c10PendingSeed0)).map
        (fun e => e.request_slot) ≠ some c10PendingSeed0.request_slot := by
  decide

end SolanaVrf
